import Mathlib

set_option maxRecDepth 8000

/-!
Shallow embedding of the STM32 GPIO peripheral model
(`src/hw/gpio/stm32_gpio.c`, `src/include/hw/gpio/stm32_gpio.h`).

Machine integers are embedded as `Nat` with explicit truncation (`% 2 ^ 32`,
masking) exactly where the C code truncates.  The QEMU IRQ side effects
(`qemu_set_irq`) and the `qemu_log_mask` diagnostics are embedded as lists of
emitted events returned alongside the new state: output-changed notifications
as `List (Nat × Bool)` (pin index, new level) and short-circuit / bad-offset
diagnostics as `List Nat` / `Bool`.
-/

/-! Register offsets, from `src/include/hw/gpio/stm32_gpio.h`. -/

def STM32_GPIO_REG_MODER : Nat := 0x000

def STM32_GPIO_REG_OTYPER : Nat := 0x004

def STM32_GPIO_REG_OSPEEDR : Nat := 0x008

def STM32_GPIO_REG_PUPDR : Nat := 0x00C

def STM32_GPIO_REG_IDR : Nat := 0x010

def STM32_GPIO_REG_ODR : Nat := 0x014

def STM32_GPIO_REG_BSRR : Nat := 0x018

def STM32_GPIO_REG_LCKR : Nat := 0x01C

def STM32_GPIO_REG_AFRL : Nat := 0x020

def STM32_GPIO_REG_AFRH : Nat := 0x024

def STM32_GPIO_NPINS : Nat := 16

def STM32_GPIO_PORT_A : Nat := 0

def STM32_GPIO_PORT_B : Nat := 1

def STM32_GPIO_MODE_INPUT : Nat := 0

def STM32_GPIO_MODE_OUTPUT : Nat := 1

def STM32_GPIO_MODE_AF : Nat := 2

def STM32_GPIO_MODE_ANALOG : Nat := 3

def STM32_GPIO_PULL_NONE : Nat := 0

def STM32_GPIO_PULL_UP : Nat := 1

def STM32_GPIO_PULL_DOWN : Nat := 2

/-- The ten defined register offsets of the address map. -/
def STM32_GPIO_REG_OFFSETS : List Nat :=
  [STM32_GPIO_REG_MODER, STM32_GPIO_REG_OTYPER, STM32_GPIO_REG_OSPEEDR,
   STM32_GPIO_REG_PUPDR, STM32_GPIO_REG_IDR, STM32_GPIO_REG_ODR,
   STM32_GPIO_REG_BSRR, STM32_GPIO_REG_LCKR, STM32_GPIO_REG_AFRL,
   STM32_GPIO_REG_AFRH]

/-- QEMU's `extract32(value, start, length)`: the `length`-bit field of
`value` starting at bit `start`. -/
def extract32 (value start length : Nat) : Nat :=
  (value >>> start) % 2 ^ length

/-- QEMU's `deposit32(value, start, length, fieldval)`:
`mask = (~0U >> (32 - length)) << start; (value & ~mask) | ((fieldval << start) & mask)`,
all in 32-bit arithmetic. -/
def deposit32 (value start length fieldval : Nat) : Nat :=
  let mask := ((2 ^ length - 1) <<< start) % 2 ^ 32
  (value &&& (0xFFFFFFFF ^^^ mask)) ||| ((fieldval <<< start) &&& mask)

/-- The mutable device state of `struct STM32GPIOState` (the `uint32_t`
register fields plus the `port` / `ngpio` configuration; the C field `in`
is a Lean keyword and is embedded as `in_`). -/
structure STM32GPIOState where
  moder : Nat
  otyper : Nat
  ospeedr : Nat
  pupdr : Nat
  idr : Nat
  odr : Nat
  lckr : Nat
  aflr : Nat
  afhr : Nat
  in_ : Nat
  in_mask : Nat
  port : Nat
  ngpio : Nat
deriving DecidableEq

/-- The body of `update_state`'s `for` loop, iterated from pin `i` for
`fuel` remaining iterations.  Returns the new state, the emitted
short-circuit diagnostics (pin indices) and the emitted output-changed
events `(pin, new_id)` in order. -/
def update_loop (s : STM32GPIOState) (i fuel : Nat) :
    STM32GPIOState × List Nat × List (Nat × Bool) :=
  match fuel with
  | 0 => (s, [], [])
  | fuel + 1 =>
    let prev_id : Bool := extract32 s.idr i 1 != 0
    let od : Bool := extract32 s.odr i 1 != 0
    let in_bit : Bool := extract32 s.in_ i 1 != 0
    let in_mask : Bool := extract32 s.in_mask i 1 != 0
    let mode := extract32 s.moder (i * 2) 2
    let pupd := extract32 s.pupdr (i * 2) 2
    let shorts : List Nat :=
      if (mode == STM32_GPIO_MODE_OUTPUT) && in_mask then [i] else []
    let new_id : Bool :=
      if in_mask then in_bit
      else if mode == STM32_GPIO_MODE_OUTPUT then od
      else pupd == STM32_GPIO_PULL_UP
    let s' := { s with idr := deposit32 s.idr i 1 (if new_id then 1 else 0) }
    let notifs : List (Nat × Bool) :=
      if (mode == STM32_GPIO_MODE_OUTPUT) && (new_id != prev_id)
      then [(i, new_id)] else []
    let rest := update_loop s' (i + 1) fuel
    (rest.1, shorts ++ rest.2.1, notifs ++ rest.2.2)

/-- `update_state` (stm32_gpio.c lines 24-64): one full run of the
resolution engine over pins `0 .. ngpio-1`. -/
def update_state (s : STM32GPIOState) :
    STM32GPIOState × List Nat × List (Nat × Bool) :=
  update_loop s 0 s.ngpio

/-- `stm32_gpio_read` (lines 66-119): returns the read value and whether a
bad-offset diagnostic was emitted.  The C function never writes to the
state, so no state is returned. -/
def stm32_gpio_read (s : STM32GPIOState) (offset : Nat) : Nat × Bool :=
  if offset = STM32_GPIO_REG_MODER then (s.moder, false)
  else if offset = STM32_GPIO_REG_OTYPER then (s.otyper, false)
  else if offset = STM32_GPIO_REG_OSPEEDR then (s.ospeedr, false)
  else if offset = STM32_GPIO_REG_PUPDR then (s.pupdr, false)
  else if offset = STM32_GPIO_REG_IDR then (s.idr, false)
  else if offset = STM32_GPIO_REG_ODR then (s.odr, false)
  else if offset = STM32_GPIO_REG_BSRR then (0, false)
  else if offset = STM32_GPIO_REG_LCKR then (s.lckr, false)
  else if offset = STM32_GPIO_REG_AFRL then (s.aflr, false)
  else if offset = STM32_GPIO_REG_AFRH then (s.afhr, false)
  else (0, true)

/-- The `switch (offset)` of `stm32_gpio_write` (lines 127-171), before the
final `update_state` call.  `value` is the 64-bit MMIO value; each
assignment to a `uint32_t` field truncates with `% 2 ^ 32`.  Returns the
updated state and whether the bad-offset diagnostic was emitted. -/
def write_reg (s : STM32GPIOState) (offset value : Nat) : STM32GPIOState × Bool :=
  if offset = STM32_GPIO_REG_MODER then ({ s with moder := value % 2 ^ 32 }, false)
  else if offset = STM32_GPIO_REG_OTYPER then ({ s with otyper := value % 2 ^ 32 }, false)
  else if offset = STM32_GPIO_REG_OSPEEDR then ({ s with ospeedr := value % 2 ^ 32 }, false)
  else if offset = STM32_GPIO_REG_PUPDR then ({ s with pupdr := value % 2 ^ 32 }, false)
  else if offset = STM32_GPIO_REG_IDR then (s, false)
  else if offset = STM32_GPIO_REG_ODR then ({ s with odr := value % 2 ^ 32 }, false)
  else if offset = STM32_GPIO_REG_BSRR then
    let odr1 := (s.odr &&& (0xFFFFFFFFFFFFFFFF ^^^ ((value >>> 16) &&& 0xFFFF))) % 2 ^ 32
    let odr2 := (odr1 ||| (value &&& 0xFFFF)) % 2 ^ 32
    ({ s with odr := odr2 }, false)
  else if offset = STM32_GPIO_REG_LCKR then ({ s with lckr := value % 2 ^ 32 }, false)
  else if offset = STM32_GPIO_REG_AFRL then ({ s with aflr := value % 2 ^ 32 }, false)
  else if offset = STM32_GPIO_REG_AFRH then ({ s with afhr := value % 2 ^ 32 }, false)
  else (s, true)

/-- `stm32_gpio_write` (lines 121-174): the register switch followed
unconditionally by one `update_state` run.  Returns the new state, the
bad-offset diagnostic flag, the short-circuit diagnostics and the
output-changed events of the resolution run. -/
def stm32_gpio_write (s : STM32GPIOState) (offset value : Nat) :
    STM32GPIOState × Bool × List Nat × List (Nat × Bool) :=
  let wr := write_reg s offset value
  let upd := update_state wr.1
  (upd.1, wr.2, upd.2.1, upd.2.2)

/-- `stm32_gpio_set` (lines 184-198): the external-signal entry point.
`line` and `value` are C `int`s.  The `assert(line >= 0 && line < STM32_GPIO_NPINS)`
is embedded as `Option`: `none` is the fatal assertion failure. -/
def stm32_gpio_set (s : STM32GPIOState) (line value : Int) :
    Option (STM32GPIOState × List Nat × List (Nat × Bool)) :=
  if 0 ≤ line ∧ line < (STM32_GPIO_NPINS : Int) then
    let s1 := { s with
      in_mask := deposit32 s.in_mask line.toNat 1 (if 0 ≤ value then 1 else 0) }
    let s2 :=
      if 0 ≤ value then
        { s1 with in_ := deposit32 s1.in_ line.toNat 1 (if value != 0 then 1 else 0) }
      else s1
    some (update_state s2)
  else none

/-- `stm32_gpio_reset` (lines 200-228).  Note: `moder` is never assigned,
and `odr` is assigned a port-specific value and then unconditionally
overwritten with `0`. -/
def stm32_gpio_reset (s : STM32GPIOState) : STM32GPIOState :=
  let s1 :=
    if s.port = STM32_GPIO_PORT_A then
      { s with odr := 0xA8000000, ospeedr := 0, pupdr := 0x64000000 }
    else if s.port = STM32_GPIO_PORT_B then
      { s with odr := 0x00000280, ospeedr := 0x000000C0, pupdr := 0x00000100 }
    else
      { s with odr := 0, ospeedr := 0, pupdr := 0 }
  { s1 with
    otyper := 0,
    idr := 0,
    odr := 0,
    lckr := 0,
    aflr := 0,
    afhr := 0,
    in_ := 0,
    in_mask := 0 }

/-- Spec-side resolution function, written from §4.2 of the spec: the
resolved level of pin `i` as a pure function of MODER, PUPDR, ODR, `in`
and `in_mask` (external drive wins, then OUTPUT mode reports ODR, else
only PULL_UP resolves high).  Used as the specification side of the
refinement claims about IDR. -/
def specResolve (moder pupdr odr in_v in_mask : Nat) (i : Nat) : Bool :=
  if extract32 in_mask i 1 != 0 then extract32 in_v i 1 != 0
  else if extract32 moder (i * 2) 2 == STM32_GPIO_MODE_OUTPUT then
    extract32 odr i 1 != 0
  else extract32 pupdr (i * 2) 2 == STM32_GPIO_PULL_UP

/-! Bit-level helper lemmas about `extract32` and `deposit32`. -/

lemma extract32_one (x i : Nat) : extract32 x i 1 = if x.testBit i then 1 else 0 := by
  simp only [extract32, Nat.shiftRight_eq_div_pow, pow_one, Nat.testBit_to_div_mod]
  rcases Nat.mod_two_eq_zero_or_one (x / 2 ^ i) with h | h <;> simp [h]

lemma extract32_one_bool (x i : Nat) : (extract32 x i 1 != 0) = x.testBit i := by
  rw [extract32_one]
  cases h : x.testBit i <;> simp [h]

lemma extract32_lt (x i l : Nat) : extract32 x i l < 2 ^ l :=
  Nat.mod_lt _ (Nat.pos_pow_of_pos l (by norm_num))

lemma testBit_deposit32_one {i j : Nat} (hi : i < 32) (hj : j < 32) (x v : Nat) :
    (deposit32 x i 1 v).testBit j = if j = i then v.testBit 0 else x.testBit j := by
  have hmask : ((2 ^ 1 - 1) <<< i) % 2 ^ 32 = 2 ^ i := by
    have h1 : (2 ^ 1 - 1 : Nat) <<< i = 2 ^ i := by
      rw [Nat.shiftLeft_eq]; norm_num
    rw [h1]
    exact Nat.mod_eq_of_lt (Nat.pow_lt_pow_right (by norm_num) hi)
  have hFF : (0xFFFFFFFF : Nat) = 2 ^ 32 - 1 := by norm_num
  simp only [deposit32, hmask, hFF, Nat.testBit_or, Nat.testBit_and, Nat.testBit_xor,
    Nat.testBit_two_pow_sub_one, Nat.testBit_two_pow, Nat.testBit_shiftLeft]
  by_cases h : j = i
  · subst h
    simp [hj]
  · have h' : ¬ i = j := fun hc => h hc.symm
    simp [h, h', hj]

lemma deposit32_lt (x i l v : Nat) : deposit32 x i l v < 2 ^ 32 := by
  have hm : ((2 ^ l - 1) <<< i) % 2 ^ 32 < 2 ^ 32 :=
    Nat.mod_lt _ (by norm_num)
  exact Nat.or_lt_two_pow
    (Nat.and_lt_two_pow _ (Nat.xor_lt_two_pow (by norm_num) hm))
    (Nat.and_lt_two_pow _ hm)

lemma testBit_of_ge_32 {x j : Nat} (hx : x < 2 ^ 32) (hj : 32 ≤ j) :
    x.testBit j = false :=
  Nat.testBit_lt_two_pow
    (lt_of_lt_of_le hx (Nat.pow_le_pow_right (by norm_num) hj))

lemma deposit32_one_self {i : Nat} (hi : i < 32) (x v : Nat) (hx : x < 2 ^ 32)
    (hb : v.testBit 0 = x.testBit i) : deposit32 x i 1 v = x := by
  apply Nat.eq_of_testBit_eq
  intro j
  by_cases hj : j < 32
  · rw [testBit_deposit32_one hi hj]
    by_cases h : j = i
    · subst h; simp [hb]
    · simp [h]
  · rw [testBit_of_ge_32 (deposit32_lt x i 1 v) (le_of_not_lt hj),
      testBit_of_ge_32 hx (le_of_not_lt hj)]

/-! Structural lemmas about the resolution loop. -/

lemma update_loop_frame (fuel : Nat) : ∀ i s,
    (update_loop s i fuel).1.moder = s.moder ∧
    (update_loop s i fuel).1.otyper = s.otyper ∧
    (update_loop s i fuel).1.ospeedr = s.ospeedr ∧
    (update_loop s i fuel).1.pupdr = s.pupdr ∧
    (update_loop s i fuel).1.odr = s.odr ∧
    (update_loop s i fuel).1.lckr = s.lckr ∧
    (update_loop s i fuel).1.aflr = s.aflr ∧
    (update_loop s i fuel).1.afhr = s.afhr ∧
    (update_loop s i fuel).1.in_ = s.in_ ∧
    (update_loop s i fuel).1.in_mask = s.in_mask ∧
    (update_loop s i fuel).1.port = s.port ∧
    (update_loop s i fuel).1.ngpio = s.ngpio := by
  induction fuel with
  | zero => intro i s; simp [update_loop]
  | succ n ih =>
    intro i s
    simp only [update_loop]
    exact ih (i + 1) _

lemma if_bool_testBit_zero (b : Bool) : (if b then 1 else 0 : Nat).testBit 0 = b := by
  cases b <;> decide

lemma update_loop_idr (fuel : Nat) : ∀ i s, i + fuel ≤ 32 → ∀ j, j < 32 →
    (update_loop s i fuel).1.idr.testBit j =
      if i ≤ j ∧ j < i + fuel then
        specResolve s.moder s.pupdr s.odr s.in_ s.in_mask j
      else s.idr.testBit j := by
  induction fuel with
  | zero =>
    intro i s h j hj
    simp only [update_loop]
    rw [if_neg (show ¬(i ≤ j ∧ j < i + 0) by omega)]
  | succ n ih =>
    intro i s h j hj
    have hi32 : i < 32 := by omega
    simp only [update_loop]
    rw [ih (i + 1) _ (by omega) j hj]
    by_cases hji : j = i
    · subst hji
      rw [if_neg (show ¬(j + 1 ≤ j ∧ j < j + 1 + n) by omega),
        if_pos (show j ≤ j ∧ j < j + (n + 1) by omega)]
      rw [testBit_deposit32_one hi32 hj]
      simp only [if_pos rfl, if_bool_testBit_zero]
      rfl
    · by_cases hin : i + 1 ≤ j ∧ j < i + 1 + n
      · rw [if_pos hin, if_pos (show i ≤ j ∧ j < i + (n + 1) by omega)]
      · rw [if_neg hin, if_neg (show ¬(i ≤ j ∧ j < i + (n + 1)) by omega)]
        rw [testBit_deposit32_one hi32 hj]
        simp [hji]

/-- The state after one iteration of the resolution loop at pin `i`
(definitionally the `s'` of `update_loop`, with `new_id` expressed through
`specResolve`). -/
def stepIdr (s : STM32GPIOState) (i : Nat) : STM32GPIOState :=
  { s with idr := deposit32 s.idr i 1 (if specResolve s.moder s.pupdr s.odr s.in_ s.in_mask i then 1 else 0) }

lemma update_loop_succ_spec (s : STM32GPIOState) (i n : Nat) :
    update_loop s i (n + 1) =
      ((update_loop (stepIdr s i) (i + 1) n).1,
       (if (extract32 s.moder (i * 2) 2 == STM32_GPIO_MODE_OUTPUT) && (extract32 s.in_mask i 1 != 0) then [i] else []) ++
         (update_loop (stepIdr s i) (i + 1) n).2.1,
       (if (extract32 s.moder (i * 2) 2 == STM32_GPIO_MODE_OUTPUT) && (specResolve s.moder s.pupdr s.odr s.in_ s.in_mask i != (extract32 s.idr i 1 != 0)) then [(i, specResolve s.moder s.pupdr s.odr s.in_ s.in_mask i)] else []) ++
         (update_loop (stepIdr s i) (i + 1) n).2.2) := rfl

lemma update_loop_notifs_mem (fuel : Nat) : ∀ i s p, p ∈ (update_loop s i fuel).2.2 →
    i ≤ p.1 ∧ p.1 < i + fuel := by
  induction fuel with
  | zero => intro i s p hp; simp [update_loop] at hp
  | succ n ih =>
    intro i s p hp
    rw [update_loop_succ_spec] at hp
    simp only [List.mem_append] at hp
    rcases hp with hp | hp
    · split at hp
      · rw [List.mem_singleton] at hp
        subst hp
        exact ⟨Nat.le_refl i, by show i < i + (n + 1); omega⟩
      · simp at hp
    · have := ih (i + 1) _ p hp
      omega

lemma update_loop_notifs_pairwise (fuel : Nat) : ∀ i s,
    ((update_loop s i fuel).2.2).Pairwise (fun a b => a.1 < b.1) := by
  induction fuel with
  | zero => intro i s; simp [update_loop]
  | succ n ih =>
    intro i s
    rw [update_loop_succ_spec]
    rw [List.pairwise_append]
    refine ⟨?_, ih (i + 1) _, ?_⟩
    · split
      · exact List.pairwise_singleton _ _
      · exact List.Pairwise.nil
    · intro a ha b hb
      have hb' := update_loop_notifs_mem n (i + 1) _ b hb
      split at ha
      · rw [List.mem_singleton] at ha
        subst ha
        show i < b.1
        omega
      · simp at ha

lemma update_loop_idr_lt_aux (fuel : Nat) : ∀ i s, s.idr < 2 ^ 32 →
    (update_loop s i fuel).1.idr < 2 ^ 32 := by
  induction fuel with
  | zero => intro i s h; simpa [update_loop] using h
  | succ n ih =>
    intro i s h
    simp only [update_loop]
    exact ih (i + 1) _ (deposit32_lt _ _ _ _)

lemma update_loop_idr_lt (fuel : Nat) (hf : 0 < fuel) (i : Nat) (s : STM32GPIOState) :
    (update_loop s i fuel).1.idr < 2 ^ 32 := by
  cases fuel with
  | zero => omega
  | succ n =>
    simp only [update_loop]
    exact update_loop_idr_lt_aux n (i + 1) _ (deposit32_lt _ _ _ _)

lemma update_loop_fix (fuel : Nat) : ∀ i s, i + fuel ≤ 32 → s.idr < 2 ^ 32 →
    (∀ j, i ≤ j → j < i + fuel →
      s.idr.testBit j = specResolve s.moder s.pupdr s.odr s.in_ s.in_mask j) →
    (update_loop s i fuel).1 = s ∧ (update_loop s i fuel).2.2 = [] := by
  induction fuel with
  | zero => intro i s _ _ _; simp [update_loop]
  | succ n ih =>
    intro i s h hlt hfix
    have hi32 : i < 32 := by omega
    have hbit : s.idr.testBit i = specResolve s.moder s.pupdr s.odr s.in_ s.in_mask i :=
      hfix i (le_refl i) (by omega)
    have hdep : deposit32 s.idr i 1
        (if specResolve s.moder s.pupdr s.odr s.in_ s.in_mask i then 1 else 0) = s.idr := by
      apply deposit32_one_self hi32 _ _ hlt
      rw [if_bool_testBit_zero, hbit]
    have hstep : stepIdr s i = s := by
      rw [stepIdr, hdep]
    have hnn : (specResolve s.moder s.pupdr s.odr s.in_ s.in_mask i !=
        (extract32 s.idr i 1 != 0)) = false := by
      rw [extract32_one_bool, hbit, bne_self_eq_false]
    rw [update_loop_succ_spec, hstep, hnn]
    obtain ⟨h1, h2⟩ := ih (i + 1) s (by omega) hlt
      (fun j hj1 hj2 => hfix j (by omega) (by omega))
    refine ⟨h1, ?_⟩
    simp [h2]

lemma write_reg_ngpio (s : STM32GPIOState) (o v : Nat) :
    (write_reg s o v).1.ngpio = s.ngpio := by
  rw [write_reg]
  by_cases h1 : o = STM32_GPIO_REG_MODER
  · rw [if_pos h1]
  rw [if_neg h1]
  by_cases h2 : o = STM32_GPIO_REG_OTYPER
  · rw [if_pos h2]
  rw [if_neg h2]
  by_cases h3 : o = STM32_GPIO_REG_OSPEEDR
  · rw [if_pos h3]
  rw [if_neg h3]
  by_cases h4 : o = STM32_GPIO_REG_PUPDR
  · rw [if_pos h4]
  rw [if_neg h4]
  by_cases h5 : o = STM32_GPIO_REG_IDR
  · rw [if_pos h5]
  rw [if_neg h5]
  by_cases h6 : o = STM32_GPIO_REG_ODR
  · rw [if_pos h6]
  rw [if_neg h6]
  by_cases h7 : o = STM32_GPIO_REG_BSRR
  · rw [if_pos h7]
  rw [if_neg h7]
  by_cases h8 : o = STM32_GPIO_REG_LCKR
  · rw [if_pos h8]
  rw [if_neg h8]
  by_cases h9 : o = STM32_GPIO_REG_AFRL
  · rw [if_pos h9]
  rw [if_neg h9]
  by_cases h10 : o = STM32_GPIO_REG_AFRH
  · rw [if_pos h10]
  rw [if_neg h10]

lemma write_reg_bad (s : STM32GPIOState) (o v : Nat)
    (h : o ∉ STM32_GPIO_REG_OFFSETS) : write_reg s o v = (s, true) := by
  simp only [STM32_GPIO_REG_OFFSETS, List.mem_cons, List.not_mem_nil, or_false,
    not_or] at h
  obtain ⟨h1, h2, h3, h4, h5, h6, h7, h8, h9, h10⟩ := h
  rw [write_reg, if_neg h1, if_neg h2, if_neg h3, if_neg h4, if_neg h5, if_neg h6,
    if_neg h7, if_neg h8, if_neg h9, if_neg h10]

lemma stm32_gpio_read_bad (s : STM32GPIOState) (o : Nat)
    (h : o ∉ STM32_GPIO_REG_OFFSETS) : stm32_gpio_read s o = (0, true) := by
  simp only [STM32_GPIO_REG_OFFSETS, List.mem_cons, List.not_mem_nil, or_false,
    not_or] at h
  obtain ⟨h1, h2, h3, h4, h5, h6, h7, h8, h9, h10⟩ := h
  rw [stm32_gpio_read, if_neg h1, if_neg h2, if_neg h3, if_neg h4, if_neg h5,
    if_neg h6, if_neg h7, if_neg h8, if_neg h9, if_neg h10]

lemma update_state_idr_bit (s : STM32GPIOState) (hng : s.ngpio ≤ 32) (i : Nat)
    (hi : i < s.ngpio) :
    (update_state s).1.idr.testBit i =
      specResolve s.moder s.pupdr s.odr s.in_ s.in_mask i := by
  have h := update_loop_idr s.ngpio 0 s (by omega) i (by omega)
  rw [update_state, h, if_pos ⟨Nat.zero_le i, by omega⟩]

lemma update_state_consistent (t : STM32GPIOState) (hng : t.ngpio ≤ 32) (i : Nat)
    (hi : i < t.ngpio) :
    (update_state t).1.idr.testBit i =
      specResolve (update_state t).1.moder (update_state t).1.pupdr
        (update_state t).1.odr (update_state t).1.in_ (update_state t).1.in_mask i := by
  obtain ⟨hm, _, _, hp, ho, _, _, _, hin, hmask, _, _⟩ := update_loop_frame t.ngpio 0 t
  simp only [update_state] at *
  rw [hm, hp, ho, hin, hmask]
  have h := update_loop_idr t.ngpio 0 t (by omega) i (by omega)
  rw [h, if_pos ⟨Nat.zero_le i, by omega⟩]

lemma stm32_gpio_set_some (s : STM32GPIOState) (line value : Int)
    (r : STM32GPIOState × List Nat × List (Nat × Bool)) :
    stm32_gpio_set s line value = some r →
    ∃ t, t.ngpio = s.ngpio ∧ r = update_state t := by
  rw [stm32_gpio_set]
  split
  · intro h
    rw [Option.some_inj] at h
    refine ⟨_, ?_, h.symm⟩
    split_ifs <;> rfl
  · intro h
    exact absurd h (by simp)

/-- Demo state: pin 0 in OUTPUT mode with ODR low but externally driven high,
16 pins, port A. -/
def demoState : STM32GPIOState := ⟨1, 0, 0, 0, 0, 0, 0, 0, 0, 1, 1, 0, 16⟩

/-- C1: one run of the resolution engine sets IDR bit `i` (for `i < ngpio`) to
the external drive bit `in[i]` when `in_mask[i]` is set, else to `ODR[i]` when
the pin's 2-bit MODER field is OUTPUT, else to 1 exactly when the pin's 2-bit
PUPDR field is PULL_UP (NONE and PULL_DOWN resolve to 0); external drive takes
priority over the output register even in OUTPUT mode (the priority is the
order of the conditions in `specResolve`). -/
theorem c1_resolution (s : STM32GPIOState) (i : Nat) (hng : s.ngpio ≤ 16)
    (hi : i < s.ngpio) :
    (update_state s).1.idr.testBit i =
      specResolve s.moder s.pupdr s.odr s.in_ s.in_mask i :=
  update_state_idr_bit s (by omega) i hi

/-- Witness for C1 at a concrete state (pin 0 OUTPUT, ODR low, externally
driven high: external drive wins and IDR bit 0 resolves to 1). -/
theorem c1_resolution_witness :
    demoState.ngpio ≤ 16 ∧ 0 < demoState.ngpio ∧
      ((update_state demoState).1.idr.testBit 0 =
        specResolve demoState.moder demoState.pupdr demoState.odr demoState.in_
          demoState.in_mask 0) ∧
      (update_state demoState).1.idr.testBit 0 = true :=
  ⟨by decide, by decide, c1_resolution demoState 0 (by decide) (by decide), by decide⟩

/-- C9: a resolution-engine run mutates only IDR; MODER, OTYPER, OSPEEDR,
PUPDR, ODR, LCKR, AFRL (`aflr`), AFRH (`afhr`), `in` and `in_mask` are
unchanged by one run of `update_state`. -/
theorem c9_engine_mutates_only_idr (s : STM32GPIOState) (hng : s.ngpio ≤ 16) :
    (update_state s).1.moder = s.moder ∧
    (update_state s).1.otyper = s.otyper ∧
    (update_state s).1.ospeedr = s.ospeedr ∧
    (update_state s).1.pupdr = s.pupdr ∧
    (update_state s).1.odr = s.odr ∧
    (update_state s).1.lckr = s.lckr ∧
    (update_state s).1.aflr = s.aflr ∧
    (update_state s).1.afhr = s.afhr ∧
    (update_state s).1.in_ = s.in_ ∧
    (update_state s).1.in_mask = s.in_mask := by
  obtain ⟨h1, h2, h3, h4, h5, h6, h7, h8, h9, h10, _, _⟩ :=
    update_loop_frame s.ngpio 0 s
  exact ⟨h1, h2, h3, h4, h5, h6, h7, h8, h9, h10⟩

/-- Witness for C9 at a concrete state. -/
theorem c9_engine_mutates_only_idr_witness :
    demoState.ngpio ≤ 16 ∧ (update_state demoState).1.odr = demoState.odr :=
  ⟨by decide, (c9_engine_mutates_only_idr demoState (by decide)).2.2.2.2.1⟩

/-- C2: after every register write (any offset, including the read-only IDR
offset and invalid offsets) and after every `stm32_gpio_set` call that
returns, IDR bit `i` (for every `i < ngpio`) equals the resolution function
of the current MODER, PUPDR, ODR, `in` and `in_mask`. -/
theorem c2_idr_pure_function (s : STM32GPIOState) (hng : s.ngpio ≤ 16) :
    (∀ offset value i, i < s.ngpio →
      (stm32_gpio_write s offset value).1.idr.testBit i =
        specResolve (stm32_gpio_write s offset value).1.moder
          (stm32_gpio_write s offset value).1.pupdr
          (stm32_gpio_write s offset value).1.odr
          (stm32_gpio_write s offset value).1.in_
          (stm32_gpio_write s offset value).1.in_mask i) ∧
    (∀ line value r, stm32_gpio_set s line value = some r →
      ∀ i, i < s.ngpio →
        r.1.idr.testBit i =
          specResolve r.1.moder r.1.pupdr r.1.odr r.1.in_ r.1.in_mask i) := by
  constructor
  · intro offset value i hi
    have hn := write_reg_ngpio s offset value
    exact update_state_consistent (write_reg s offset value).1 (by omega) i (by omega)
  · intro line value r hr i hi
    obtain ⟨t, htn, hrt⟩ := stm32_gpio_set_some s line value r hr
    subst hrt
    exact update_state_consistent t (by omega) i (by omega)

/-- The state reached from `demoState` by releasing the external drive value
to 0 on pin 0 (used by the C2 witness). -/
def extDemoState : STM32GPIOState := ⟨1, 0, 0, 0, 0, 0, 0, 0, 0, 0, 1, 0, 16⟩

/-- Witness for C2: a concrete write to the read-only IDR offset and a
concrete external-drive call, both leaving IDR consistent. -/
theorem c2_idr_pure_function_witness :
    demoState.ngpio ≤ 16 ∧ 0 < demoState.ngpio ∧
      ((stm32_gpio_write demoState STM32_GPIO_REG_IDR 0xFFFF).1.idr.testBit 0 =
        specResolve (stm32_gpio_write demoState STM32_GPIO_REG_IDR 0xFFFF).1.moder
          (stm32_gpio_write demoState STM32_GPIO_REG_IDR 0xFFFF).1.pupdr
          (stm32_gpio_write demoState STM32_GPIO_REG_IDR 0xFFFF).1.odr
          (stm32_gpio_write demoState STM32_GPIO_REG_IDR 0xFFFF).1.in_
          (stm32_gpio_write demoState STM32_GPIO_REG_IDR 0xFFFF).1.in_mask 0) ∧
      stm32_gpio_set demoState 0 0 = some (update_state extDemoState) ∧
      ((update_state extDemoState).1.idr.testBit 0 =
        specResolve (update_state extDemoState).1.moder
          (update_state extDemoState).1.pupdr (update_state extDemoState).1.odr
          (update_state extDemoState).1.in_ (update_state extDemoState).1.in_mask 0) :=
  ⟨by decide, by decide,
    (c2_idr_pure_function demoState (by decide)).1 STM32_GPIO_REG_IDR 0xFFFF 0 (by decide),
    by decide,
    (c2_idr_pure_function demoState (by decide)).2 0 0 (update_state extDemoState)
      (by decide) 0 (by decide)⟩

/-- C10: resolution is total over all 2-bit field values: for every undriven
pin (`in_mask` bit clear) whose MODER field is anything other than OUTPUT
(including ALTERNATE_FUNCTION and ANALOG), the resolved IDR bit is 1 exactly
when the PUPDR field equals 1 (PULL_UP); in particular the reserved PUPDR
value 3 resolves to 0, like NONE and PULL_DOWN, with no error path. -/
theorem c10_resolution_total (s : STM32GPIOState) (i : Nat) (hng : s.ngpio ≤ 16)
    (hi : i < s.ngpio) (hmask : extract32 s.in_mask i 1 = 0)
    (hmode : extract32 s.moder (i * 2) 2 ≠ STM32_GPIO_MODE_OUTPUT) :
    ((update_state s).1.idr.testBit i = true ↔
      extract32 s.pupdr (i * 2) 2 = STM32_GPIO_PULL_UP) := by
  rw [update_state_idr_bit s (by omega) i hi, specResolve, hmask]
  simp [hmode]

/-- State whose pin 0 has the reserved PUPDR field value 3 (used by the C10
witness). -/
def reservedPullState : STM32GPIOState := ⟨0, 0, 0, 3, 0, 0, 0, 0, 0, 0, 0, 0, 16⟩

/-- Witness for C10: with the reserved PUPDR value 3 on an undriven non-OUTPUT
pin, the pin resolves low. -/
theorem c10_resolution_total_witness :
    reservedPullState.ngpio ≤ 16 ∧ 0 < reservedPullState.ngpio ∧
      extract32 reservedPullState.in_mask 0 1 = 0 ∧
      extract32 reservedPullState.moder (0 * 2) 2 ≠ STM32_GPIO_MODE_OUTPUT ∧
      (((update_state reservedPullState).1.idr.testBit 0 = true) ↔
        extract32 reservedPullState.pupdr (0 * 2) 2 = STM32_GPIO_PULL_UP) ∧
      (update_state reservedPullState).1.idr.testBit 0 = false :=
  ⟨by decide, by decide, by decide, by decide,
    c10_resolution_total reservedPullState 0 (by decide) (by decide) (by decide) (by decide),
    by decide⟩

lemma stm32_gpio_write_bsrr_odr (s : STM32GPIOState) (v : Nat) :
    (stm32_gpio_write s STM32_GPIO_REG_BSRR v).1.odr =
      ((s.odr &&& (0xFFFFFFFFFFFFFFFF ^^^ ((v >>> 16) &&& 0xFFFF))) % 2 ^ 32 |||
        (v &&& 0xFFFF)) % 2 ^ 32 := by
  obtain ⟨_, _, _, _, ho, _, _, _, _, _, _, _⟩ :=
    update_loop_frame (write_reg s STM32_GPIO_REG_BSRR v).1.ngpio 0
      (write_reg s STM32_GPIO_REG_BSRR v).1
  exact ho

/-- C3: a BSRR write first clears the ODR bits named by the high 16 bits of
`v`, then ORs in the low 16 bits of `v`; bits 16..31 of ODR are unchanged;
when the same pin's set bit (low half) and reset bit (high half) are both 1,
the ODR bit ends up 1 (set wins). -/
theorem c3_bsrr_set_priority (s : STM32GPIOState) (v : Nat) (hv : v < 2 ^ 32)
    (hodr : s.odr < 2 ^ 32) :
    (∀ j, j < 16 →
      (stm32_gpio_write s STM32_GPIO_REG_BSRR v).1.odr.testBit j =
        ((s.odr.testBit j && !(v.testBit (j + 16))) || v.testBit j)) ∧
    (∀ j, 16 ≤ j →
      (stm32_gpio_write s STM32_GPIO_REG_BSRR v).1.odr.testBit j = s.odr.testBit j) ∧
    (∀ p, p < 16 → v.testBit p = true → v.testBit (p + 16) = true →
      (stm32_gpio_write s STM32_GPIO_REG_BSRR v).1.odr.testBit p = true) := by
  have h16 : (0xFFFF : Nat) = 2 ^ 16 - 1 := by norm_num
  have h64 : (0xFFFFFFFFFFFFFFFF : Nat) = 2 ^ 64 - 1 := by norm_num
  have hbit : ∀ j, (stm32_gpio_write s STM32_GPIO_REG_BSRR v).1.odr.testBit j =
      (decide (j < 32) &&
        ((s.odr.testBit j && !(decide (j < 16) && v.testBit (16 + j))) ||
          (decide (j < 16) && v.testBit j))) := by
    intro j
    rw [stm32_gpio_write_bsrr_odr, h16, h64]
    simp only [Nat.testBit_mod_two_pow, Nat.testBit_or, Nat.testBit_and,
      Nat.testBit_xor, Nat.testBit_shiftRight, Nat.testBit_two_pow_sub_one]
    by_cases hj32 : j < 32
    · by_cases hj16 : j < 16
      · simp [hj32, hj16, show j < 64 by omega]
      · simp [hj32, hj16, show j < 64 by omega]
    · simp [hj32]
  refine ⟨?_, ?_, ?_⟩
  · intro j hj
    rw [hbit j]
    simp [show j < 32 by omega, hj, Nat.add_comm 16 j]
  · intro j hj
    rw [hbit j]
    by_cases hj32 : j < 32
    · simp [hj32, show ¬ j < 16 by omega]
    · rw [testBit_of_ge_32 hodr (by omega)]
      simp [hj32]
  · intro p hp h1 h2
    rw [hbit p]
    simp [show p < 32 by omega, hp, Nat.add_comm 16 p, h1, h2]
/-- Witness for C3: writing BSRR with bit 0 (set) and bit 16 (reset) both 1
leaves ODR bit 0 set. -/
theorem c3_bsrr_set_priority_witness :
    (0x10001 : Nat) < 2 ^ 32 ∧ demoState.odr < 2 ^ 32 ∧
      (stm32_gpio_write demoState STM32_GPIO_REG_BSRR 0x10001).1.odr.testBit 0 = true :=
  ⟨by norm_num, by decide,
    (c3_bsrr_set_priority demoState 0x10001 (by norm_num) (by decide)).2.2 0
      (by decide) (by decide) (by decide)⟩

lemma write_reg_idr (s : STM32GPIOState) (v : Nat) :
    write_reg s STM32_GPIO_REG_IDR v = (s, false) := rfl

/-- C8: a write to the read-only IDR offset behaves identically for every
written value: final state, diagnostics and notifications do not depend on
the value (the IDR case of the switch is a no-op before the unconditional
`update_state` run). -/
theorem c8_idr_write_value_irrelevant (s : STM32GPIOState) (v1 v2 : Nat) :
    stm32_gpio_write s STM32_GPIO_REG_IDR v1 = stm32_gpio_write s STM32_GPIO_REG_IDR v2 := by
  rw [stm32_gpio_write, stm32_gpio_write, write_reg_idr, write_reg_idr]

/-- State with `ngpio` configured to 8 (used by the C6 counterexample). -/
def smallNgpioState : STM32GPIOState := ⟨0, 0, 0, 0, 0, 0, 0, 0, 0, 0, 0, 0, 8⟩

/-- C6 fails as stated: the assertion in `stm32_gpio_set` compares the pin
index against the compile-time constant `STM32_GPIO_NPINS` (16), not against
the instance's configured `ngpio`.  With `ngpio = 8`, pin 10 is outside
`0..ngpio-1`, yet the call returns normally instead of asserting. -/
theorem c6_counterexample :
    smallNgpioState.ngpio = 8 ∧ stm32_gpio_set smallNgpioState 10 1 ≠ none :=
  ⟨rfl, by decide⟩

/-- C6 (amended): `stm32_gpio_set` fails its assertion exactly when the pin
index is outside `0 .. STM32_GPIO_NPINS - 1` (that is, 0..15), independently
of the instance's configured `ngpio`; inside that range it never asserts,
and it never clamps. -/
theorem c6_assert_range (s : STM32GPIOState) (line value : Int) :
    stm32_gpio_set s line value = none ↔
      (line < 0 ∨ (STM32_GPIO_NPINS : Int) ≤ line) := by
  rw [stm32_gpio_set]
  split
  · rename_i h
    simp only [reduceCtorEq, false_iff]
    omega
  · rename_i h
    simp only [true_iff]
    omega

lemma stm32_gpio_write_bad (s : STM32GPIOState) (offset value : Nat)
    (hoff : offset ∉ STM32_GPIO_REG_OFFSETS) :
    stm32_gpio_write s offset value =
      ((update_state s).1, true, (update_state s).2.1, (update_state s).2.2) := by
  rw [stm32_gpio_write, write_reg_bad s offset value hoff]

/-- State with a pull-up on pin 0 and a stale all-zero IDR, as left by reset
(used by the C4 counterexample). -/
def pullUpState : STM32GPIOState := ⟨0, 0, 0, 1, 0, 0, 0, 0, 0, 0, 0, 0, 16⟩

/-- C4 fails as stated for writes: a write to the invalid offset 0x100 still
runs the resolution engine, which here flips IDR bit 0 (stale 0, pull-up
resolves 1), so state IS mutated. -/
theorem c4_counterexample :
    (0x100 : Nat) ∉ STM32_GPIO_REG_OFFSETS ∧
      (stm32_gpio_write pullUpState 0x100 0).1.idr ≠ pullUpState.idr :=
  ⟨by decide, by decide⟩

/-- C4 (amended): a read at an offset outside the ten defined registers
returns 0 with a malformed-access diagnostic and (being pure) changes no
state; a write to such an offset emits the diagnostic and leaves every
register except IDR unchanged, but still triggers one resolution-engine run,
so IDR is recomputed from the unchanged registers (and may change). -/
theorem c4_invalid_offset (s : STM32GPIOState) (offset : Nat) (hng : s.ngpio ≤ 16)
    (hoff : offset ∉ STM32_GPIO_REG_OFFSETS) :
    stm32_gpio_read s offset = (0, true) ∧
    (∀ value,
      (stm32_gpio_write s offset value).2.1 = true ∧
      (stm32_gpio_write s offset value).1.moder = s.moder ∧
      (stm32_gpio_write s offset value).1.otyper = s.otyper ∧
      (stm32_gpio_write s offset value).1.ospeedr = s.ospeedr ∧
      (stm32_gpio_write s offset value).1.pupdr = s.pupdr ∧
      (stm32_gpio_write s offset value).1.odr = s.odr ∧
      (stm32_gpio_write s offset value).1.lckr = s.lckr ∧
      (stm32_gpio_write s offset value).1.aflr = s.aflr ∧
      (stm32_gpio_write s offset value).1.afhr = s.afhr ∧
      (stm32_gpio_write s offset value).1.in_ = s.in_ ∧
      (stm32_gpio_write s offset value).1.in_mask = s.in_mask ∧
      (∀ i, i < s.ngpio →
        (stm32_gpio_write s offset value).1.idr.testBit i =
          specResolve s.moder s.pupdr s.odr s.in_ s.in_mask i)) := by
  refine ⟨stm32_gpio_read_bad s offset hoff, ?_⟩
  intro value
  rw [stm32_gpio_write_bad s offset value hoff]
  obtain ⟨h1, h2, h3, h4, h5, h6, h7, h8, h9, h10, _, _⟩ := update_loop_frame s.ngpio 0 s
  exact ⟨rfl, h1, h2, h3, h4, h5, h6, h7, h8, h9, h10,
    fun i hi => update_state_idr_bit s (by omega) i hi⟩

/-- Witness for C4 (amended) at a concrete state and the invalid offset
0x100. -/
theorem c4_invalid_offset_witness :
    pullUpState.ngpio ≤ 16 ∧ (0x100 : Nat) ∉ STM32_GPIO_REG_OFFSETS ∧
      stm32_gpio_read pullUpState 0x100 = (0, true) ∧
      (stm32_gpio_write pullUpState 0x100 0).2.1 = true ∧
      (stm32_gpio_write pullUpState 0x100 0).1.pupdr = pullUpState.pupdr :=
  ⟨by decide, by decide, (c4_invalid_offset pullUpState 0x100 (by decide) (by decide)).1,
    ((c4_invalid_offset pullUpState 0x100 (by decide) (by decide)).2 0).1,
    ((c4_invalid_offset pullUpState 0x100 (by decide) (by decide)).2 0).2.2.2.2.1⟩

/-- Port-A state with a nonzero MODER (used by the C5 counterexample). -/
def moderPortAState : STM32GPIOState := ⟨5, 0, 0, 0, 0, 0, 0, 0, 0, 0, 0, 0, 16⟩

/-- C5 fails as stated: `stm32_gpio_reset` never assigns `moder`, so after
reset on a port-A instance whose MODER was 5, reading the MODER offset
returns 5, not 0. -/
theorem c5_counterexample :
    moderPortAState.port = STM32_GPIO_PORT_A ∧
      (stm32_gpio_read (stm32_gpio_reset moderPortAState) STM32_GPIO_REG_MODER).1 ≠ 0 :=
  ⟨rfl, by decide⟩

/-- Fresh port-A instance with MODER 0 (used to show reset does not run the
resolution engine). -/
def freshPortAState : STM32GPIOState := ⟨0, 0, 0, 0, 0, 0, 0, 0, 0, 0, 0, 0, 16⟩

/-- C5 (amended): after `reset()` on a port-A instance, MODER keeps its
prior value (so it reads 0 only if it was already 0), PUPDR reads
0x64000000, ODR reads 0 (the port-specific ODR reset value is dead-stored),
and IDR reads 0.  Reset does not run the resolution engine: on a fresh
port-A instance IDR is left at 0 even though one engine run would resolve
the PUPDR pull-ups to 0xA000. -/
theorem c5_reset_port_a (s : STM32GPIOState) (hA : s.port = STM32_GPIO_PORT_A) :
    stm32_gpio_read (stm32_gpio_reset s) STM32_GPIO_REG_MODER = (s.moder, false) ∧
    stm32_gpio_read (stm32_gpio_reset s) STM32_GPIO_REG_PUPDR = (0x64000000, false) ∧
    stm32_gpio_read (stm32_gpio_reset s) STM32_GPIO_REG_ODR = (0, false) ∧
    stm32_gpio_read (stm32_gpio_reset s) STM32_GPIO_REG_IDR = (0, false) ∧
    (stm32_gpio_reset freshPortAState).idr = 0 ∧
    (update_state (stm32_gpio_reset freshPortAState)).1.idr = 0xA000 := by
  refine ⟨?_, ?_, ?_, ?_, by decide, by decide⟩ <;>
    simp [stm32_gpio_read, stm32_gpio_reset, hA, STM32_GPIO_PORT_A,
      STM32_GPIO_REG_MODER, STM32_GPIO_REG_OTYPER, STM32_GPIO_REG_OSPEEDR,
      STM32_GPIO_REG_PUPDR, STM32_GPIO_REG_IDR, STM32_GPIO_REG_ODR]

/-- Witness for C5 (amended) on a concrete port-A instance with nonzero
MODER. -/
theorem c5_reset_port_a_witness :
    moderPortAState.port = STM32_GPIO_PORT_A ∧
      stm32_gpio_read (stm32_gpio_reset moderPortAState) STM32_GPIO_REG_PUPDR =
        (0x64000000, false) :=
  ⟨by decide, (c5_reset_port_a moderPortAState (by decide)).2.1⟩

lemma update_state_frame (t : STM32GPIOState) :
    (update_state t).1.moder = t.moder ∧
    (update_state t).1.otyper = t.otyper ∧
    (update_state t).1.ospeedr = t.ospeedr ∧
    (update_state t).1.pupdr = t.pupdr ∧
    (update_state t).1.odr = t.odr ∧
    (update_state t).1.lckr = t.lckr ∧
    (update_state t).1.aflr = t.aflr ∧
    (update_state t).1.afhr = t.afhr ∧
    (update_state t).1.in_ = t.in_ ∧
    (update_state t).1.in_mask = t.in_mask ∧
    (update_state t).1.port = t.port ∧
    (update_state t).1.ngpio = t.ngpio :=
  update_loop_frame t.ngpio 0 t

lemma update_state_notifs_pairwise (t : STM32GPIOState) :
    List.Pairwise (fun a b => a.1 < b.1) (update_state t).2.2 :=
  update_loop_notifs_pairwise t.ngpio 0 t

lemma update_state_fix (t : STM32GPIOState) (h32 : t.ngpio ≤ 32)
    (hlt : t.idr < 2 ^ 32)
    (hfix : ∀ j, j < t.ngpio →
      t.idr.testBit j = specResolve t.moder t.pupdr t.odr t.in_ t.in_mask j) :
    (update_state t).1 = t ∧ (update_state t).2.2 = [] :=
  update_loop_fix t.ngpio 0 t (by omega) hlt (fun j _ h2 => hfix j (by omega))

lemma update_state_idr_lt (t : STM32GPIOState) (h : 0 < t.ngpio) :
    (update_state t).1.idr < 2 ^ 32 :=
  update_loop_idr_lt t.ngpio h 0 t

lemma write_reg_odr (s : STM32GPIOState) (v : Nat) :
    write_reg s STM32_GPIO_REG_ODR v = ({ s with odr := v % 2 ^ 32 }, false) := rfl

lemma stm32_gpio_write_odr (s : STM32GPIOState) (v : Nat) :
    stm32_gpio_write s STM32_GPIO_REG_ODR v =
      ((update_state { s with odr := v % 2 ^ 32 }).1, false,
       (update_state { s with odr := v % 2 ^ 32 }).2.1,
       (update_state { s with odr := v % 2 ^ 32 }).2.2) := by
  rw [stm32_gpio_write, write_reg_odr]

lemma write_odr_noop (u : STM32GPIOState) (v : Nat) (h32 : u.ngpio ≤ 32)
    (hodr : u.odr = v % 2 ^ 32)
    (hlt : 0 < u.ngpio → u.idr < 2 ^ 32)
    (hfix : ∀ j, j < u.ngpio →
      u.idr.testBit j = specResolve u.moder u.pupdr u.odr u.in_ u.in_mask j) :
    (stm32_gpio_write u STM32_GPIO_REG_ODR v).1 = u ∧
    (stm32_gpio_write u STM32_GPIO_REG_ODR v).2.2.2 = [] := by
  have hid : ({ u with odr := v % 2 ^ 32 } : STM32GPIOState) = u := by
    rw [← hodr]
  have hw : stm32_gpio_write u STM32_GPIO_REG_ODR v =
      ((update_state u).1, false, (update_state u).2.1, (update_state u).2.2) := by
    rw [stm32_gpio_write, write_reg_odr, hid]
  rw [hw]
  by_cases h0 : u.ngpio = 0
  · have hz : update_state u = (u, [], []) := by
      rw [update_state, h0]
      rfl
    rw [hz]
    exact ⟨rfl, rfl⟩
  · exact update_state_fix u h32 (hlt (by omega)) hfix

/-- C7: writing the same value `v` to the ODR offset twice in a row produces
at most one output-changed notification per pin on the first write (the
notification list is strictly increasing in the pin index), none at all on
the second write, and the second write leaves the whole state — in
particular IDR — identical to the state after the first write. -/
theorem c7_odr_double_write (s : STM32GPIOState) (v : Nat) (hng : s.ngpio ≤ 16) :
    (stm32_gpio_write (stm32_gpio_write s STM32_GPIO_REG_ODR v).1
        STM32_GPIO_REG_ODR v).1 = (stm32_gpio_write s STM32_GPIO_REG_ODR v).1 ∧
    (stm32_gpio_write (stm32_gpio_write s STM32_GPIO_REG_ODR v).1
        STM32_GPIO_REG_ODR v).2.2.2 = [] ∧
    List.Pairwise (fun a b => a.1 < b.1)
      (stm32_gpio_write s STM32_GPIO_REG_ODR v).2.2.2 := by
  obtain ⟨f1, f2, f3, f4, f5, f6, f7, f8, f9, f10, f11, f12⟩ :=
    update_state_frame { s with odr := v % 2 ^ 32 }
  have hng' : ({ s with odr := v % 2 ^ 32 } : STM32GPIOState).ngpio ≤ 32 := by
    show s.ngpio ≤ 32
    omega
  obtain ⟨hA, hB⟩ := write_odr_noop (update_state { s with odr := v % 2 ^ 32 }).1 v
    (by rw [f12]; exact hng')
    (by rw [f5])
    (fun hpos => update_state_idr_lt { s with odr := v % 2 ^ 32 } (by rw [← f12]; exact hpos))
    (fun j hj => update_state_consistent { s with odr := v % 2 ^ 32 } hng' j
      (by rw [← f12]; exact hj))
  rw [stm32_gpio_write_odr s v]
  exact ⟨hA, hB, update_state_notifs_pairwise { s with odr := v % 2 ^ 32 }⟩

/-- Witness for C7 at a concrete state: pin 0 is OUTPUT with no external
drive, ODR goes from 0 to 1; the first write notifies once, the second not
at all. -/
def outputState : STM32GPIOState := ⟨1, 0, 0, 0, 0, 0, 0, 0, 0, 0, 0, 0, 16⟩

theorem c7_odr_double_write_witness :
    outputState.ngpio ≤ 16 ∧
      ((stm32_gpio_write (stm32_gpio_write outputState STM32_GPIO_REG_ODR 1).1
          STM32_GPIO_REG_ODR 1).1 =
        (stm32_gpio_write outputState STM32_GPIO_REG_ODR 1).1) ∧
      (stm32_gpio_write (stm32_gpio_write outputState STM32_GPIO_REG_ODR 1).1
          STM32_GPIO_REG_ODR 1).2.2.2 = [] ∧
      (stm32_gpio_write outputState STM32_GPIO_REG_ODR 1).2.2.2 = [(0, true)] :=
  ⟨by decide,
    (c7_odr_double_write outputState 1 (by decide)).1,
    (c7_odr_double_write outputState 1 (by decide)).2.1,
    by decide⟩
